import Mathlib

/-!
Verification development for the exposure-notifications verification server.

The repository's `pkg/api/api.go` declares the JSON request/response types
and the recognized test-type constants; the credential lifecycle itself
(code store, code issuer, code verifier, token validator, certificate
issuer) is specified in `spec.md` and modelled here from that specification.
Struct-tag-level facts (JSON key names) are taken directly from `api.go`.
-/

namespace ENVerification

/-! ## Constants from `pkg/api/api.go` -/

/-- `TestTypeConfirmed` from `api.go`: the string for a confirmed covid-19 test. -/
def TestTypeConfirmed : String := "confirmed"

/-- `TestTypeLikely` from `api.go`: the string for a clinical diagnosis. -/
def TestTypeLikely : String := "likely"

/-- `TestTypeNegative` from `api.go`: the string for a negative test. -/
def TestTypeNegative : String := "negative"

/-! ## Error kinds (spec section 7) -/

/-- Modelled from the spec: the error kinds of section 7 (the core's
implementations of these operations are not in the excerpt). -/
inductive VError where
  | InvalidArgument
  | NotFound
  | Expired
  | AlreadyUsed
  | Malformed
  | SignatureInvalid
  | Internal
deriving DecidableEq, Repr

/-- Modelled from the spec: each error is returned as a single
human-readable `error` string field. -/
def errString : VError → String
  | .InvalidArgument => "invalid argument"
  | .NotFound => "code not found"
  | .Expired => "expired"
  | .AlreadyUsed => "code already used"
  | .Malformed => "malformed token"
  | .SignatureInvalid => "signature invalid"
  | .Internal => "internal error"

/-! ## Calendar arithmetic (for symptom dates and RFC1123 rendering) -/

/-- A calendar date (no time component), as in `symptomDate` (YYYY-MM-DD). -/
structure CivilDate where
  year : Nat
  month : Nat
  day : Nat
deriving DecidableEq, Repr

/-- Gregorian date from a count of days since the Unix epoch (1970-01-01). -/
def civilFromDays (z0 : Nat) : CivilDate :=
  let z := z0 + 719468
  let era := z / 146097
  let doe := z % 146097
  let yoe := (doe - doe / 1460 + doe / 36524 - doe / 146096) / 365
  let y := yoe + era * 400
  let doy := doe - (365 * yoe + yoe / 4 - yoe / 100)
  let mp := (5 * doy + 2) / 153
  let d := doy - (153 * mp + 2) / 5 + 1
  let m := if mp < 10 then mp + 3 else mp - 9
  ⟨if m ≤ 2 then y + 1 else y, m, d⟩

/-- Whether `y` is a Gregorian leap year. -/
def isLeapYear (y : Nat) : Bool :=
  (y % 4 = 0 && y % 100 ≠ 0) || y % 400 = 0

/-- Number of days in month `m` of year `y`. -/
def daysInMonth (y m : Nat) : Nat :=
  if m = 2 then (if isLeapYear y then 29 else 28)
  else if m = 4 || m = 6 || m = 9 || m = 11 then 30
  else 31

/-- Numeric value of a decimal digit character. -/
def digitVal (c : Char) : Nat := c.toNat - 48

/-- Parse an ISO 8601 `YYYY-MM-DD` calendar date, rejecting invalid dates. -/
def parseDate (s : String) : Option CivilDate :=
  match s.toList with
  | [y1, y2, y3, y4, h1, m1, m2, h2, d1, d2] =>
    if h1 = '-' && h2 = '-' && [y1, y2, y3, y4, m1, m2, d1, d2].all Char.isDigit then
      let y := digitVal y1 * 1000 + digitVal y2 * 100 + digitVal y3 * 10 + digitVal y4
      let m := digitVal m1 * 10 + digitVal m2
      let d := digitVal d1 * 10 + digitVal d2
      if 1 ≤ m && m ≤ 12 && 1 ≤ d && d ≤ daysInMonth y m then some ⟨y, m, d⟩
      else none
    else none
  | _ => none

/-- Lexicographic order on calendar dates: `a` is on or before `b`. -/
def dateLE (a b : CivilDate) : Bool :=
  a.year < b.year ||
    (a.year = b.year &&
      (a.month < b.month || (a.month = b.month && a.day ≤ b.day)))

/-- Left-pad a number to two decimal digits. -/
def pad2 (n : Nat) : String :=
  if n < 10 then "0" ++ toString n else toString n

/-- Abbreviated weekday name, index 0 = Sunday. -/
def weekdayName (i : Nat) : String :=
  ["Sun", "Mon", "Tue", "Wed", "Thu", "Fri", "Sat"].getD i ""

/-- Abbreviated month name, index 1 = January. -/
def monthName (m : Nat) : String :=
  ["", "Jan", "Feb", "Mar", "Apr", "May", "Jun",
   "Jul", "Aug", "Sep", "Oct", "Nov", "Dec"].getD m ""

/-- Render a Unix timestamp (seconds) as an RFC1123 string in UTC, the
human-readable form of `expiresAt` in `IssueCodeResponse` (`api.go`). -/
def formatRFC1123 (t : Nat) : String :=
  let days := t / 86400
  let secs := t % 86400
  let ymd := civilFromDays days
  weekdayName ((days + 4) % 7) ++ ", " ++ pad2 ymd.day ++ " " ++
    monthName ymd.month ++ " " ++ toString ymd.year ++ " " ++
    pad2 (secs / 3600) ++ ":" ++ pad2 (secs % 3600 / 60) ++ ":" ++
    pad2 (secs % 60) ++ " UTC"

/-! ## Data model (spec section 3) -/

/-- Modelled from the spec: the persisted `VerificationCode` record
(code string, test type, optional symptom date, timestamps, consumed flag). -/
structure VerificationCode where
  code : String
  testType : String
  symptomDate : Option String
  issuedAt : Nat
  expiresAt : Nat
  consumed : Bool
deriving DecidableEq, Repr

/-- Modelled from the spec: the Code Store, keyed by the code string. -/
def CodeStore := List VerificationCode

instance : DecidableEq CodeStore := inferInstanceAs (DecidableEq (List VerificationCode))

/-- Look up a code record by its code string (first match). -/
def lookupCode : CodeStore → String → Option VerificationCode
  | [], _ => none
  | vc :: rest, c => if vc.code = c then some vc else lookupCode rest c

/-- Set `consumed := true` on the first record whose code matches. -/
def consumeCode : CodeStore → String → CodeStore
  | [], _ => []
  | vc :: rest, c =>
    if vc.code = c then { vc with consumed := true } :: rest
    else vc :: consumeCode rest c

/-- Modelled from the spec: the claims of a `VerificationToken`
(test type, optional symptom date, issuance time, expiry, token id). -/
structure TokenClaims where
  testType : String
  symptomDate : Option String
  issuedAt : Nat
  expiresAt : Nat
  tokenId : Nat
deriving DecidableEq, Repr

/-- A simple string digest used to model the signing primitive. -/
def strHash (s : String) : Nat :=
  s.foldl (fun a c => a * 131 + c.toNat) 7

/-- Serialize token claims for signing. -/
def encodeClaims (c : TokenClaims) : String :=
  c.testType ++ "|" ++ c.symptomDate.getD "" ++ "|" ++ toString c.issuedAt ++
    "|" ++ toString c.expiresAt ++ "|" ++ toString c.tokenId

/-- Modelled from the spec: signing of token claims with the
token-signing key (integrity protection, no encryption). -/
def signClaims (key : Nat) (c : TokenClaims) : Nat :=
  strHash (toString key ++ "|" ++ encodeClaims c)

/-- Modelled from the spec: a presented token string either parses into the
expected signed structure or is malformed. -/
inductive VerificationToken where
  | signed (claims : TokenClaims) (sig : Nat)
  | garbage (raw : String)
deriving DecidableEq, Repr

/-- Modelled from the spec: a `VerificationCertificate` binding the
validated claims and the client-supplied exposure-key HMAC, signed with
the certificate-signing key, with a short expiry. -/
structure VerificationCertificate where
  testType : String
  symptomDate : Option String
  exposureKeyHMAC : String
  issuedAt : Nat
  expiresAt : Nat
  sig : Nat
deriving DecidableEq, Repr

/-- Serialize certificate claims for signing. -/
def encodeCertBody (c : VerificationCertificate) : String :=
  c.testType ++ "|" ++ c.symptomDate.getD "" ++ "|" ++ c.exposureKeyHMAC ++
    "|" ++ toString c.issuedAt ++ "|" ++ toString c.expiresAt

/-! ## Code Issuer (spec section 4.1) -/

/-- Whether `t` is one of the three recognized test types of `api.go`. -/
def validTestType (t : String) : Bool :=
  t = TestTypeConfirmed || t = TestTypeLikely || t = TestTypeNegative

/-- Whether an optional symptom date is a valid calendar date not in the
future relative to the issuance instant `now` (Unix seconds). -/
def validSymptomDate (sd : Option String) (now : Nat) : Bool :=
  match sd with
  | none => true
  | some s =>
    match parseDate s with
    | none => false
    | some d => dateLE d (civilFromDays (now / 86400))

/-- Result of a successful `Issue`: the code string and its absolute expiry. -/
structure IssueResult where
  code : String
  expiresAt : Nat
deriving DecidableEq, Repr

/-- Modelled from the spec: `Issue(testType, symptomDate?)` (section 4.1).
Validates the test type and symptom date, writes a new `VerificationCode`
record with `consumed = false`, and returns the code and its expiry.
`newCode` stands for the generated high-entropy code string. -/
def Issue (store : CodeStore) (newCode : String) (testType : String)
    (symptomDate : Option String) (now : Nat) (codeLife : Nat) :
    CodeStore × Except VError IssueResult :=
  if ¬ validTestType testType then (store, .error .InvalidArgument)
  else if ¬ validSymptomDate symptomDate now then (store, .error .InvalidArgument)
  else
    (⟨newCode, testType, symptomDate, now, now + codeLife, false⟩ :: store,
     .ok ⟨newCode, now + codeLife⟩)

/-! ## Code Verifier (spec section 4.2) -/

/-- Modelled from the spec: `Verify(code)` (section 4.2). Looks the code up
(`NotFound` if absent), fails `Expired` if `now > expiresAt`, fails
`AlreadyUsed` if consumed, otherwise atomically sets `consumed := true`
and mints a signed token carrying the code's claims. Failures return the
store unchanged. -/
def Verify (store : CodeStore) (code : String) (now : Nat) (key : Nat)
    (tokenLife : Nat) (tokenId : Nat) :
    CodeStore × Except VError VerificationToken :=
  match lookupCode store code with
  | none => (store, .error .NotFound)
  | some vc =>
    if vc.expiresAt < now then (store, .error .Expired)
    else if vc.consumed then (store, .error .AlreadyUsed)
    else
      let claims : TokenClaims :=
        ⟨vc.testType, vc.symptomDate, now, now + tokenLife, tokenId⟩
      (consumeCode store code, .ok (.signed claims (signClaims key claims)))

/-- A linearization of N `Verify` calls against the same code: the calls
execute in sequence, each at its own timestamp, threading the store. -/
def verifyMany (store : CodeStore) (code : String) (ts : List Nat) (key : Nat)
    (tokenLife : Nat) (tokenId : Nat) :
    CodeStore × List (Except VError VerificationToken) :=
  match ts with
  | [] => (store, [])
  | t :: rest =>
    let step := Verify store code t key tokenLife tokenId
    let restRun := verifyMany step.1 code rest key tokenLife (tokenId + 1)
    (restRun.1, step.2 :: restRun.2)

/-! ## Token Validator (spec section 4.3) -/

/-- Modelled from the spec: `ValidateToken(tokenString)` (section 4.3).
Fails `Malformed` if the token does not parse, `SignatureInvalid` if the
signature does not verify, `Expired` if `now` is past the expiry claim;
otherwise returns the embedded claims. Purely functional, no side effects. -/
def ValidateToken (key : Nat) (tok : VerificationToken) (now : Nat) :
    Except VError TokenClaims :=
  match tok with
  | .garbage _ => .error .Malformed
  | .signed claims sig =>
    if sig ≠ signClaims key claims then .error .SignatureInvalid
    else if claims.expiresAt < now then .error .Expired
    else .ok claims

/-! ## Certificate Issuer (spec section 4.4) -/

/-- Expected byte length of the exposure-key HMAC digest. -/
def hmacLength : Nat := 32

/-- Modelled from the spec: `IssueCertificate(tokenString, exposureKeyHMAC)`
(section 4.4). Requires a well-formed fixed-length HMAC, delegates to the
Token Validator propagating its errors unchanged, and on success mints a
certificate embedding the validated claims and the supplied HMAC, signed
with the certificate-signing key, with a short expiry. -/
def IssueCertificate (tokenKey certKey : Nat) (tok : VerificationToken)
    (hmac : String) (now : Nat) (certLife : Nat) :
    Except VError VerificationCertificate :=
  if hmac.length ≠ hmacLength then .error .InvalidArgument
  else
    match ValidateToken tokenKey tok now with
    | .error e => .error e
    | .ok claims =>
      let body : VerificationCertificate :=
        ⟨claims.testType, claims.symptomDate, hmac, now, now + certLife, 0⟩
      .ok { body with sig := strHash (toString certKey ++ "|" ++ encodeCertBody body) }

/-! ## Response types from `pkg/api/api.go` and boundary wrappers -/

/-- `IssueCodeRequest` from `api.go`. -/
structure IssueCodeRequest where
  TestType : String
  SymptomDate : String
  Phone : String
deriving DecidableEq, Repr

/-- `IssueCodeResponse` from `api.go`. -/
structure IssueCodeResponse where
  VerificationCode : String
  ExpiresAt : String
  ExpiresAtTimestamp : Int
  Error : String
deriving DecidableEq, Repr

/-- `VerifyCodeResponse` from `api.go`. -/
structure VerifyCodeResponse where
  TestType : String
  SymptomDate : String
  VerificationToken : String
  Error : String
deriving DecidableEq, Repr

/-- `VerificationCertificateResponse` from `api.go`. -/
structure VerificationCertificateResponse where
  Certificate : String
  Error : String
deriving DecidableEq, Repr

/-- `CoverResponse` from `api.go`. -/
structure CoverResponse where
  Data : String
  Error : String
deriving DecidableEq, Repr

/-- Serialize a minted token into the `token` string field of
`VerifyCodeResponse`. -/
def tokenToString : VerificationToken → String
  | .signed claims sig => encodeClaims claims ++ "." ++ toString sig
  | .garbage raw => raw

/-- Serialize a certificate into the `certificate` string field of
`VerificationCertificateResponse`. -/
def certToString (c : VerificationCertificate) : String :=
  encodeCertBody c ++ "." ++ toString c.sig

/-- Modelled from the spec: the `IssueCode` boundary operation (section 6),
wrapping `Issue` into an `IssueCodeResponse`; an error is returned in place
of a success payload, never both. -/
def issueCode (store : CodeStore) (newCode : String) (testType : String)
    (symptomDate : Option String) (now : Nat) (codeLife : Nat) :
    CodeStore × IssueCodeResponse :=
  match Issue store newCode testType symptomDate now codeLife with
  | (s, .ok r) =>
    (s, ⟨r.code, formatRFC1123 r.expiresAt, (r.expiresAt : Int), ""⟩)
  | (s, .error e) => (s, ⟨"", "", 0, errString e⟩)

/-- Modelled from the spec: the `VerifyCode` boundary operation (section 6),
wrapping `Verify` into a `VerifyCodeResponse`. -/
def verifyCode (store : CodeStore) (code : String) (now : Nat) (key : Nat)
    (tokenLife : Nat) (tokenId : Nat) : CodeStore × VerifyCodeResponse :=
  match Verify store code now key tokenLife tokenId with
  | (s, .ok tok) =>
    match tok with
    | .signed claims sig =>
      (s, ⟨claims.testType, claims.symptomDate.getD "",
           tokenToString (.signed claims sig), ""⟩)
    | .garbage _ => (s, ⟨"", "", "", errString .Internal⟩)
  | (s, .error e) => (s, ⟨"", "", "", errString e⟩)

/-- Modelled from the spec: the `IssueCertificate` boundary operation
(section 6), wrapping `IssueCertificate` into a
`VerificationCertificateResponse`. -/
def issueCertificateResponse (tokenKey certKey : Nat) (tok : VerificationToken)
    (hmac : String) (now : Nat) (certLife : Nat) :
    VerificationCertificateResponse :=
  match IssueCertificate tokenKey certKey tok hmac now certLife with
  | .ok cert => ⟨certToString cert, ""⟩
  | .error e => ⟨"", errString e⟩

/-! ## Go struct tags and JSON key selection (`pkg/api/api.go`) -/

/-- A Go struct field: its name and its struct-tag key/value pairs. -/
structure GoField where
  name : String
  tags : List (String × String)
deriving DecidableEq, Repr

/-- Characters before the first comma. -/
def takeUntilComma : List Char → List Char
  | [] => []
  | c :: cs => if c = ',' then [] else c :: takeUntilComma cs

/-- The name part of a tag value: everything before the first comma
(Go's `json` tag options such as `omitempty` follow the comma). -/
def tagNamePart (v : String) : String := String.mk (takeUntilComma v.toList)

/-- The JSON object key `encoding/json` uses for a field: the name from the
`json` tag when one is present and non-empty, otherwise the Go field name.
A tag under any other key (such as `string`) is ignored by the encoder. -/
def jsonKey (f : GoField) : String :=
  match f.tags.lookup "json" with
  | some v => if tagNamePart v = "" then f.name else tagNamePart v
  | none => f.name

/-- The fields of `IssueCodeRequest` with their struct tags, from `api.go`. -/
def issueCodeRequestFields : List GoField :=
  [⟨"TestType", [("json", "testType")]⟩,
   ⟨"SymptomDate", [("json", "symptomDate")]⟩,
   ⟨"Phone", [("json", "phone")]⟩]

/-- The fields of `IssueCodeResponse` with their struct tags, from `api.go`. -/
def issueCodeResponseFields : List GoField :=
  [⟨"VerificationCode", [("json", "code")]⟩,
   ⟨"ExpiresAt", [("json", "expiresAt")]⟩,
   ⟨"ExpiresAtTimestamp", [("json", "expiresAtTimestamp")]⟩,
   ⟨"Error", [("json", "error")]⟩]

/-- The fields of `VerifyCodeResponse` with their struct tags, from `api.go`. -/
def verifyCodeResponseFields : List GoField :=
  [⟨"TestType", [("json", "testtype")]⟩,
   ⟨"SymptomDate", [("json", "symptomDate")]⟩,
   ⟨"VerificationToken", [("json", "token")]⟩,
   ⟨"Error", [("json", "error")]⟩]

/-- The fields of `VerificationCertificateResponse` with their struct tags,
from `api.go`. -/
def verificationCertificateResponseFields : List GoField :=
  [⟨"Certificate", [("json", "certificate")]⟩,
   ⟨"Error", [("json", "error")]⟩]

/-- The fields of `ErrorReturn` with their struct tags, from `api.go`. -/
def errorReturnFields : List GoField :=
  [⟨"Error", [("json", "error")]⟩]

/-- The fields of `CSRFResponse` with their struct tags, from `api.go`. -/
def csrfResponseFields : List GoField :=
  [⟨"CSRFToken", [("json", "csrftoken")]⟩,
   ⟨"Error", [("json", "error")]⟩]

/-- The fields of `CoverResponse` with their struct tags, from `api.go`:
the `Error` field's tag uses the key `string`, not `json`. -/
def coverResponseFields : List GoField :=
  [⟨"Data", [("json", "data")]⟩,
   ⟨"Error", [("string", "error")]⟩]

/-- JSON serialization of a `CoverResponse` value as an ordered list of
key/value pairs, with keys chosen by `encoding/json`'s rule. -/
def encodeCoverResponse (r : CoverResponse) : List (String × String) :=
  [(jsonKey ⟨"Data", [("json", "data")]⟩, r.Data),
   (jsonKey ⟨"Error", [("string", "error")]⟩, r.Error)]

/-- JSON serialization of an `IssueCodeRequest` value as an ordered list of
key/value pairs. -/
def encodeIssueCodeRequest (r : IssueCodeRequest) : List (String × String) :=
  [(jsonKey ⟨"TestType", [("json", "testType")]⟩, r.TestType),
   (jsonKey ⟨"SymptomDate", [("json", "symptomDate")]⟩, r.SymptomDate),
   (jsonKey ⟨"Phone", [("json", "phone")]⟩, r.Phone)]

/-- JSON serialization of a `VerifyCodeResponse` value as an ordered list of
key/value pairs. -/
def encodeVerifyCodeResponse (r : VerifyCodeResponse) : List (String × String) :=
  [(jsonKey ⟨"TestType", [("json", "testtype")]⟩, r.TestType),
   (jsonKey ⟨"SymptomDate", [("json", "symptomDate")]⟩, r.SymptomDate),
   (jsonKey ⟨"VerificationToken", [("json", "token")]⟩, r.VerificationToken),
   (jsonKey ⟨"Error", [("json", "error")]⟩, r.Error)]

deriving instance DecidableEq for Except

/-! ## Helper lemmas -/

/-- Consuming a code updates the record found under that code string. -/
theorem lookupCode_consumeCode (store : CodeStore) (c : String)
    (vc : VerificationCode) (h : lookupCode store c = some vc) :
    lookupCode (consumeCode store c) c = some { vc with consumed := true } := by
  induction store with
  | nil => simp [lookupCode] at h
  | cons hd tl ih =>
    by_cases hc : hd.code = c
    · simp [lookupCode, hc] at h
      subst h
      simp [consumeCode, hc, lookupCode]
    · simp only [lookupCode, hc, if_false] at h
      simp only [consumeCode, hc, if_false, lookupCode]
      exact ih h

/-- Every error renders to a non-empty human-readable string. -/
theorem errString_ne_empty (e : VError) : errString e ≠ "" := by
  cases e <;> decide

/-- `Verify` on a consumed, unexpired code fails `AlreadyUsed` and leaves
the store unchanged. -/
theorem verify_consumed (store : CodeStore) (c : String) (vc : VerificationCode)
    (now key life tid : Nat) (hfind : lookupCode store c = some vc)
    (hcons : vc.consumed = true) (hunexp : ¬ vc.expiresAt < now) :
    Verify store c now key life tid = (store, .error .AlreadyUsed) := by
  simp [Verify, hfind, hcons, hunexp]

/-- A linearized batch of `Verify` calls on a consumed, unexpired code all
fail `AlreadyUsed` and leave the store unchanged. -/
theorem verifyMany_consumed (store : CodeStore) (c : String)
    (vc : VerificationCode) (ts : List Nat) (key life tid : Nat)
    (hfind : lookupCode store c = some vc) (hcons : vc.consumed = true)
    (hts : ∀ t ∈ ts, ¬ vc.expiresAt < t) :
    verifyMany store c ts key life tid =
      (store, ts.map (fun _ => .error .AlreadyUsed)) := by
  induction ts generalizing tid with
  | nil => simp [verifyMany]
  | cons t rest ih =>
    have hv := verify_consumed store c vc t key life tid hfind hcons
      (hts t (by simp))
    simp [verifyMany, hv, ih (tid + 1) (fun u hu => hts u (by simp [hu]))]

/-- Counting a predicate over a replicated list. -/
theorem countP_replicate {α : Type} (p : α → Bool) (n : Nat) (a : α) :
    List.countP p (List.replicate n a) = if p a then n else 0 := by
  induction n with
  | zero => simp
  | succ k ih =>
    simp only [List.replicate, List.countP_cons, ih]
    by_cases h : p a <;> simp [h]

/-! ## Claims -/

/-- C3: for every stored code, `Verify` at a time strictly after the code's
`expiresAt` fails with `Expired` (even if never previously verified) and
leaves the store, hence the stored record, completely unchanged. -/
theorem C3_verify_expired (store : CodeStore) (c : String)
    (vc : VerificationCode) (now key life tid : Nat)
    (hfind : lookupCode store c = some vc) (hexp : vc.expiresAt < now) :
    Verify store c now key life tid = (store, .error .Expired) := by
  simp [Verify, hfind, hexp]

/-- Witness for C3 at a concrete store and time past expiry. -/
theorem C3_verify_expired_witness :
    lookupCode [⟨"abc", "confirmed", none, 0, 10, false⟩] "abc" =
      some ⟨"abc", "confirmed", none, 0, 10, false⟩ ∧
    (10 : Nat) < 11 ∧
    Verify [⟨"abc", "confirmed", none, 0, 10, false⟩] "abc" 11 0 100 1 =
      ([⟨"abc", "confirmed", none, 0, 10, false⟩], .error .Expired) :=
  ⟨by decide, by decide,
   C3_verify_expired [⟨"abc", "confirmed", none, 0, 10, false⟩] "abc"
     ⟨"abc", "confirmed", none, 0, 10, false⟩ 11 0 100 1 (by decide) (by decide)⟩

/-- C6: `Issue` fails with `InvalidArgument` for every test type outside
{confirmed, likely, negative}, and accepts the test type only when it is
one of those three recognized values. -/
theorem C6_issue_testtype (store : CodeStore) (newCode t : String)
    (sd : Option String) (now life : Nat) :
    (validTestType t = false →
      (Issue store newCode t sd now life).2 = .error .InvalidArgument) ∧
    (∀ r, (Issue store newCode t sd now life).2 = .ok r →
      validTestType t = true) := by
  constructor
  · intro h
    simp [Issue, h]
  · intro r hr
    by_cases h : validTestType t
    · exact h
    · simp [Issue, h] at hr

/-- Witness for C6 at a concrete unrecognized test type. -/
theorem C6_issue_testtype_witness :
    validTestType "bogus" = false ∧
    (Issue [] "c1" "bogus" none 0 900).2 = .error .InvalidArgument :=
  ⟨by decide, (C6_issue_testtype [] "c1" "bogus" none 0 900).1 (by decide)⟩

/-- C1 counterexample: a code issued with expiry 10 is successfully verified
at time 5 (unexpired, unconsumed), yet a subsequent `Verify` at time 11 fails
with `Expired`, not `AlreadyUsed` — the expiry check precedes the consumed
check — refuting "every subsequent Verify fails with AlreadyUsed". -/
theorem C1_counterexample :
    (Verify [⟨"abc", "confirmed", none, 0, 10, false⟩] "abc" 5 0 100 1).2.isOk
      = true ∧
    (Verify (Verify [⟨"abc", "confirmed", none, 0, 10, false⟩]
        "abc" 5 0 100 1).1 "abc" 11 0 100 2).2 = .error .Expired ∧
    (Except.error VError.Expired : Except VError VerificationToken) ≠
      .error .AlreadyUsed :=
  ⟨by decide, by decide, by decide⟩

/-- C1 (amended): the consumed flag transitions false→true at most once:
the first `Verify` on an unexpired, unconsumed code succeeds and sets
`consumed := true`, and every subsequent `Verify` on that same code fails —
with `AlreadyUsed` when not past expiry and `Expired` when past expiry —
without any further state mutation. -/
theorem C1_consume_once (store : CodeStore) (c : String)
    (vc : VerificationCode) (t1 t2 key1 life1 tid1 key2 life2 tid2 : Nat)
    (hfind : lookupCode store c = some vc)
    (hunexp : ¬ vc.expiresAt < t1) (hfresh : vc.consumed = false) :
    (Verify store c t1 key1 life1 tid1).2.isOk = true ∧
    lookupCode (Verify store c t1 key1 life1 tid1).1 c =
      some { vc with consumed := true } ∧
    (Verify (Verify store c t1 key1 life1 tid1).1 c t2 key2 life2 tid2).1 =
      (Verify store c t1 key1 life1 tid1).1 ∧
    (Verify (Verify store c t1 key1 life1 tid1).1 c t2 key2 life2 tid2).2 =
      .error (if vc.expiresAt < t2 then .Expired else .AlreadyUsed) := by
  have h1 : Verify store c t1 key1 life1 tid1 =
      (consumeCode store c,
       .ok (.signed ⟨vc.testType, vc.symptomDate, t1, t1 + life1, tid1⟩
         (signClaims key1 ⟨vc.testType, vc.symptomDate, t1, t1 + life1, tid1⟩))) := by
    simp [Verify, hfind, hunexp, hfresh]
  have h2 : lookupCode (consumeCode store c) c =
      some { vc with consumed := true } :=
    lookupCode_consumeCode store c vc hfind
  refine ⟨?_, ?_, ?_, ?_⟩
  · rw [h1]; rfl
  · rw [h1]; exact h2
  · rw [h1]
    by_cases hexp : vc.expiresAt < t2
    · simp [Verify, h2, hexp]
    · simp [Verify, h2, hexp]
  · rw [h1]
    by_cases hexp : vc.expiresAt < t2
    · simp [Verify, h2, hexp]
    · simp [Verify, h2, hexp]

/-- Witness for C1 (amended) at a concrete store: verify at time 5, then
again at time 7 (before expiry), observing `AlreadyUsed`. -/
theorem C1_consume_once_witness :
    lookupCode [⟨"abc", "confirmed", none, 0, 10, false⟩] "abc" =
      some ⟨"abc", "confirmed", none, 0, 10, false⟩ ∧
    ¬ (10 : Nat) < 5 ∧
    (false = false) ∧
    ((Verify [⟨"abc", "confirmed", none, 0, 10, false⟩]
        "abc" 5 0 100 1).2.isOk = true ∧
     lookupCode (Verify [⟨"abc", "confirmed", none, 0, 10, false⟩]
        "abc" 5 0 100 1).1 "abc" = some ⟨"abc", "confirmed", none, 0, 10, true⟩ ∧
     (Verify (Verify [⟨"abc", "confirmed", none, 0, 10, false⟩]
         "abc" 5 0 100 1).1 "abc" 7 0 100 2).1 =
       (Verify [⟨"abc", "confirmed", none, 0, 10, false⟩] "abc" 5 0 100 1).1 ∧
     (Verify (Verify [⟨"abc", "confirmed", none, 0, 10, false⟩]
         "abc" 5 0 100 1).1 "abc" 7 0 100 2).2 =
       .error (if (10 : Nat) < 7 then .Expired else .AlreadyUsed)) :=
  ⟨by decide, by decide, rfl,
   C1_consume_once [⟨"abc", "confirmed", none, 0, 10, false⟩] "abc"
     ⟨"abc", "confirmed", none, 0, 10, false⟩ 5 7 0 100 1 0 100 2
     (by decide) (by decide) (by decide)⟩

/-- C2: for any N ≥ 1 `Verify` calls against one issued, unexpired,
unconsumed code — modelled, per the spec's linearizability requirement, as
the calls executing in their linearization order — exactly 1 call succeeds
and the other N−1 fail with `AlreadyUsed`; in particular no two both
succeed. -/
theorem C2_concurrent_single_success (store : CodeStore) (c : String)
    (vc : VerificationCode) (ts : List Nat) (key life tid : Nat)
    (hfind : lookupCode store c = some vc) (hfresh : vc.consumed = false)
    (hts : ∀ t ∈ ts, ¬ vc.expiresAt < t) (hN : ts ≠ []) :
    (verifyMany store c ts key life tid).2.countP (fun r => r.isOk) = 1 ∧
    (verifyMany store c ts key life tid).2.countP
      (fun r => decide (r = Except.error VError.AlreadyUsed)) =
      ts.length - 1 := by
  match ts, hN with
  | t :: rest, _ =>
    have h1 : Verify store c t key life tid =
        (consumeCode store c,
         .ok (.signed ⟨vc.testType, vc.symptomDate, t, t + life, tid⟩
           (signClaims key ⟨vc.testType, vc.symptomDate, t, t + life, tid⟩))) := by
      simp [Verify, hfind, hts t (by simp), hfresh]
    have h2 : lookupCode (consumeCode store c) c =
        some { vc with consumed := true } :=
      lookupCode_consumeCode store c vc hfind
    have h3 : verifyMany (consumeCode store c) c rest key life (tid + 1) =
        (consumeCode store c, rest.map (fun _ => .error .AlreadyUsed)) :=
      verifyMany_consumed (consumeCode store c) c { vc with consumed := true }
        rest key life (tid + 1) h2 rfl
        (fun u hu => by simpa using hts u (by simp [hu]))
    simp only [verifyMany, h1, h3]
    constructor
    · simp [List.countP_cons, countP_replicate, Except.isOk, Except.toBool]
    · simp [List.countP_cons, countP_replicate]

/-- Witness for C2 with N = 3 calls at times 1, 2, 3 against a code
expiring at 10. -/
theorem C2_concurrent_single_success_witness :
    lookupCode [⟨"abc", "confirmed", none, 0, 10, false⟩] "abc" =
      some ⟨"abc", "confirmed", none, 0, 10, false⟩ ∧
    (false = false) ∧
    (∀ t ∈ [1, 2, 3], ¬ (⟨"abc", "confirmed", none, 0, 10, false⟩ :
      VerificationCode).expiresAt < t) ∧
    ([1, 2, 3] ≠ ([] : List Nat)) ∧
    ((verifyMany [⟨"abc", "confirmed", none, 0, 10, false⟩] "abc" [1, 2, 3]
        0 100 1).2.countP (fun r => r.isOk) = 1 ∧
     (verifyMany [⟨"abc", "confirmed", none, 0, 10, false⟩] "abc" [1, 2, 3]
        0 100 1).2.countP
        (fun r => decide (r = Except.error VError.AlreadyUsed)) =
        [1, 2, 3].length - 1) :=
  ⟨by decide, rfl, by decide, by decide,
   C2_concurrent_single_success [⟨"abc", "confirmed", none, 0, 10, false⟩]
     "abc" ⟨"abc", "confirmed", none, 0, 10, false⟩ [1, 2, 3] 0 100 1
     (by decide) (by decide) (by decide) (by decide)⟩

/-- C4: round-trip: a token minted by a successful `Verify` carries the
code's claims {testType, symptomDate}; `ValidateToken` applied to that token
at or before its expiry returns exactly those claims, and applied strictly
after its expiry fails with `Expired`. -/
theorem C4_token_roundtrip (store : CodeStore) (c : String)
    (vc : VerificationCode) (t tv key life tid : Nat)
    (hfind : lookupCode store c = some vc)
    (hunexp : ¬ vc.expiresAt < t) (hfresh : vc.consumed = false) :
    ∃ claims sig,
      (Verify store c t key life tid).2 = .ok (.signed claims sig) ∧
      claims.testType = vc.testType ∧
      claims.symptomDate = vc.symptomDate ∧
      (¬ claims.expiresAt < tv →
        ValidateToken key (.signed claims sig) tv = .ok claims) ∧
      (claims.expiresAt < tv →
        ValidateToken key (.signed claims sig) tv = .error .Expired) := by
  refine ⟨⟨vc.testType, vc.symptomDate, t, t + life, tid⟩,
    signClaims key ⟨vc.testType, vc.symptomDate, t, t + life, tid⟩,
    ?_, rfl, rfl, ?_, ?_⟩
  · simp [Verify, hfind, hunexp, hfresh]
  · intro hv
    simp [ValidateToken, hv]
  · intro hv
    simp [ValidateToken, hv]

/-- Witness for C4: token minted at time 5 with lifetime 100, validated at
time 50 (before its expiry at 105). -/
theorem C4_token_roundtrip_witness :
    lookupCode [⟨"abc", "confirmed", some "2024-01-15", 0, 10, false⟩] "abc" =
      some ⟨"abc", "confirmed", some "2024-01-15", 0, 10, false⟩ ∧
    ¬ (10 : Nat) < 5 ∧
    (false = false) ∧
    (∃ claims sig,
      (Verify [⟨"abc", "confirmed", some "2024-01-15", 0, 10, false⟩]
        "abc" 5 7 100 1).2 = .ok (.signed claims sig) ∧
      claims.testType = "confirmed" ∧
      claims.symptomDate = some "2024-01-15" ∧
      (¬ claims.expiresAt < 50 →
        ValidateToken 7 (.signed claims sig) 50 = .ok claims) ∧
      (claims.expiresAt < 50 →
        ValidateToken 7 (.signed claims sig) 50 = .error .Expired)) :=
  ⟨by decide, by decide, rfl,
   C4_token_roundtrip [⟨"abc", "confirmed", some "2024-01-15", 0, 10, false⟩]
     "abc" ⟨"abc", "confirmed", some "2024-01-15", 0, 10, false⟩ 5 50 7 100 1
     (by decide) (by decide) (by decide)⟩

/-- C5: `IssueCertificate` (with a well-formed fixed-length HMAC) delegates
token checking to the Token Validator and, whenever validation fails,
returns the validator's error unchanged (`Malformed`, `SignatureInvalid`,
or `Expired`); on success the issued certificate embeds the validated
claims and the supplied HMAC. -/
theorem C5_certificate_delegation (tokenKey certKey : Nat)
    (tok : VerificationToken) (hmac : String) (now certLife : Nat)
    (hlen : hmac.length = hmacLength) :
    (∀ e, ValidateToken tokenKey tok now = .error e →
      IssueCertificate tokenKey certKey tok hmac now certLife = .error e) ∧
    (∀ claims, ValidateToken tokenKey tok now = .ok claims →
      ∃ cert, IssueCertificate tokenKey certKey tok hmac now certLife =
          .ok cert ∧
        cert.testType = claims.testType ∧
        cert.symptomDate = claims.symptomDate ∧
        cert.exposureKeyHMAC = hmac) := by
  constructor
  · intro e he
    simp [IssueCertificate, hlen, he]
  · intro claims hc
    refine ⟨⟨claims.testType, claims.symptomDate, hmac, now, now + certLife,
      strHash (toString certKey ++ "|" ++ encodeCertBody
        ⟨claims.testType, claims.symptomDate, hmac, now, now + certLife, 0⟩)⟩,
      ?_, rfl, rfl, rfl⟩
    simp [IssueCertificate, hlen, hc]

/-- Witness for C5: a malformed token with a 32-byte HMAC yields the
validator's `Malformed` error unchanged. -/
theorem C5_certificate_delegation_witness :
    ("abcdefghijklmnopqrstuvwxyz012345".length = hmacLength) ∧
    ValidateToken 0 (.garbage "junk") 0 = .error .Malformed ∧
    IssueCertificate 0 1 (.garbage "junk")
      "abcdefghijklmnopqrstuvwxyz012345" 0 300 = .error .Malformed :=
  ⟨by decide, by decide,
   (C5_certificate_delegation 0 1 (.garbage "junk")
      "abcdefghijklmnopqrstuvwxyz012345" 0 300 (by decide)).1
     .Malformed (by decide)⟩

/-- C7: for each core boundary operation (IssueCode, VerifyCode,
IssueCertificate) the result is either a success payload or an error payload
whose single human-readable `error` field is set — never both a non-empty
error and a success payload at once. -/
theorem C7_error_xor_payload :
    (∀ (store : CodeStore) (newCode t : String) (sd : Option String)
        (now life : Nat),
      (issueCode store newCode t sd now life).2.Error = "" ∨
      ((issueCode store newCode t sd now life).2.Error ≠ "" ∧
       (issueCode store newCode t sd now life).2.VerificationCode = "" ∧
       (issueCode store newCode t sd now life).2.ExpiresAt = "" ∧
       (issueCode store newCode t sd now life).2.ExpiresAtTimestamp = 0)) ∧
    (∀ (store : CodeStore) (c : String) (now key life tid : Nat),
      (verifyCode store c now key life tid).2.Error = "" ∨
      ((verifyCode store c now key life tid).2.Error ≠ "" ∧
       (verifyCode store c now key life tid).2.TestType = "" ∧
       (verifyCode store c now key life tid).2.SymptomDate = "" ∧
       (verifyCode store c now key life tid).2.VerificationToken = "")) ∧
    (∀ (tokenKey certKey : Nat) (tok : VerificationToken) (hmac : String)
        (now certLife : Nat),
      (issueCertificateResponse tokenKey certKey tok hmac now
        certLife).Error = "" ∨
      ((issueCertificateResponse tokenKey certKey tok hmac now
         certLife).Error ≠ "" ∧
       (issueCertificateResponse tokenKey certKey tok hmac now
         certLife).Certificate = "")) := by
  refine ⟨?_, ?_, ?_⟩
  · intro store newCode t sd now life
    rcases hI : Issue store newCode t sd now life with ⟨s, r⟩
    cases r with
    | ok v => left; simp [issueCode, hI]
    | error e => right; simp [issueCode, hI, errString_ne_empty]
  · intro store c now key life tid
    rcases hV : Verify store c now key life tid with ⟨s, r⟩
    cases r with
    | ok tok =>
      cases tok with
      | signed claims sig => left; simp [verifyCode, hV]
      | garbage raw => right; simp [verifyCode, hV, errString_ne_empty]
    | error e => right; simp [verifyCode, hV, errString_ne_empty]
  · intro tokenKey certKey tok hmac now certLife
    rcases hC : IssueCertificate tokenKey certKey tok hmac now certLife with
      e | cert
    · right; simp [issueCertificateResponse, hC, errString_ne_empty]
    · left; simp [issueCertificateResponse, hC]

/-- C8: every successful IssueCode result contains the code string and the
code's absolute expiry in two forms denoting the same instant: the
RFC1123 UTC rendering (`expiresAt`) and the Unix-seconds timestamp
(`expiresAtTimestamp`) of one and the same expiry value. -/
theorem C8_expiry_two_forms (store : CodeStore) (newCode t : String)
    (sd : Option String) (now life : Nat) (r : IssueResult)
    (h : (Issue store newCode t sd now life).2 = .ok r) :
    (issueCode store newCode t sd now life).2.VerificationCode = r.code ∧
    (issueCode store newCode t sd now life).2.ExpiresAtTimestamp =
      (r.expiresAt : Int) ∧
    (issueCode store newCode t sd now life).2.ExpiresAt =
      formatRFC1123 r.expiresAt := by
  rcases hI : Issue store newCode t sd now life with ⟨s, rr⟩
  rw [hI] at h
  subst h
  refine ⟨?_, ?_, ?_⟩ <;> simp [issueCode, hI]

/-- Witness for C8 at a concrete successful issuance (code "c1", issued at
time 0 with a 900-second lifetime). -/
theorem C8_expiry_two_forms_witness :
    (Issue [] "c1" "confirmed" none 0 900).2 = .ok ⟨"c1", 900⟩ ∧
    ((issueCode [] "c1" "confirmed" none 0 900).2.VerificationCode = "c1" ∧
     (issueCode [] "c1" "confirmed" none 0 900).2.ExpiresAtTimestamp =
       ((900 : Nat) : Int) ∧
     (issueCode [] "c1" "confirmed" none 0 900).2.ExpiresAt =
       formatRFC1123 900) :=
  ⟨by decide,
   C8_expiry_two_forms [] "c1" "confirmed" none 0 900 ⟨"c1", 900⟩ (by decide)⟩

/-- C9: the `Error` field of `CoverResponse` carries the tag under the key
`string` rather than `json`, so its JSON serialization emits the key
"Error" (the Go field name) for every value, while every other response
type at the public interface emits the lowercase key "error". -/
theorem C9_cover_error_key :
    (⟨"Error", [("string", "error")]⟩ : GoField).tags.lookup "json" = none ∧
    (⟨"Error", [("string", "error")]⟩ : GoField).tags.lookup "string" =
      some "error" ∧
    jsonKey ⟨"Error", [("string", "error")]⟩ = "Error" ∧
    (∀ r : CoverResponse,
      (encodeCoverResponse r).map Prod.fst = ["data", "Error"]) ∧
    coverResponseFields.map jsonKey = ["data", "Error"] ∧
    issueCodeResponseFields.map jsonKey =
      ["code", "expiresAt", "expiresAtTimestamp", "error"] ∧
    verifyCodeResponseFields.map jsonKey =
      ["testtype", "symptomDate", "token", "error"] ∧
    verificationCertificateResponseFields.map jsonKey =
      ["certificate", "error"] ∧
    errorReturnFields.map jsonKey = ["error"] ∧
    csrfResponseFields.map jsonKey = ["csrftoken", "error"] :=
  ⟨by decide, by decide, by decide, fun r => rfl, by decide, by decide,
   by decide, by decide, by decide, by decide⟩

/-- C10: the JSON key for the test type differs in casing across the public
interface: `IssueCodeRequest` serializes it under "testType" while
`VerifyCodeResponse` serializes it under "testtype", and the two keys are
distinct. -/
theorem C10_testtype_key_casing :
    (∀ r : IssueCodeRequest,
      (encodeIssueCodeRequest r).map Prod.fst =
        ["testType", "symptomDate", "phone"] ∧
      ("testType", r.TestType) ∈ encodeIssueCodeRequest r) ∧
    (∀ r : VerifyCodeResponse,
      (encodeVerifyCodeResponse r).map Prod.fst =
        ["testtype", "symptomDate", "token", "error"] ∧
      ("testtype", r.TestType) ∈ encodeVerifyCodeResponse r) ∧
    "testType" ≠ "testtype" :=
  ⟨fun r => ⟨rfl, List.Mem.head _⟩, fun r => ⟨rfl, List.Mem.head _⟩,
   by decide⟩

end ENVerification
